import Mathlib

/-!
# Verification of the planet-wars simulation core

A shallow embedding of the simulation and combat-resolution engine of the
planet-wars game (files `game/entities.py`, `game/abilities.py`,
`game/game_state.py`, `game/ai/simple_ai.py`), together with theorems that
settle the spec claims about it.

Modelling conventions:
* Python floats are modelled as exact rationals (`ℚ`);
* Python ints are modelled as `ℤ` (they are arbitrary precision);
* `random.randint` calls are modelled as oracle inputs (values handed to the
  embedded function), with their range contract stated as hypotheses;
* pygame/audio/logging calls have no effect on the modelled state and are
  dropped.
-/

namespace PlanetWars

/-- Planet / fleet owner: the string field `owner` of `Planet` and `Ship`,
which is always one of "Player", "Enemy", "Neutral". -/
inductive Owner where
  | Player
  | Enemy
  | Neutral
deriving DecidableEq, Repr

/-- The state of `entities.Planet` relevant to the simulation core
(the cosmetic `name` field is omitted). -/
structure Planet where
  x : ℚ
  y : ℚ
  radius : ℚ
  owner : Owner
  ship_count : ℤ
  production_rate : ℤ
  production_timer : ℚ
deriving DecidableEq, Repr

/-- Python's built-in `round` (banker's rounding: ties go to the even
integer), used by the `Planet` constructor on `production_rate`. -/
def pythonRound (q : ℚ) : ℤ :=
  let f := ⌊q⌋
  if q - f < 1/2 then f
  else if q - f > 1/2 then f + 1
  else if f % 2 = 0 then f else f + 1

/-- `Planet.__init__`: the production rate is linearly interpolated from the
radius (radius 20 ↦ 1 ship/s, radius 70 ↦ 4 ships/s) and rounded to the
nearest integer; the production timer starts at 0. -/
def Planet.create (x y radius : ℚ) (owner : Owner) (ship_count : ℤ) : Planet :=
  let min_radius : ℚ := 20
  let max_radius : ℚ := 70
  let min_production : ℚ := 1
  let max_production : ℚ := 4
  let ratio := (radius - min_radius) / (max_radius - min_radius)
  { x := x, y := y, radius := radius, owner := owner, ship_count := ship_count,
    production_rate := pythonRound (min_production + ratio * (max_production - min_production)),
    production_timer := 0 }

/-- `Planet.update(dt)`: non-Neutral planets accumulate `dt` into the
production timer; when the timer reaches `1 / production_rate` the planet
gains one ship and the timer is reduced by that amount.  Note the source
uses `if`, not `while`: at most one ship is produced per call. -/
def Planet.update (p : Planet) (dt : ℚ) : Planet :=
  if p.owner ≠ Owner.Neutral then
    let timer := p.production_timer + dt
    let time_per_ship : ℚ := 1 / p.production_rate
    if timer ≥ time_per_ship then
      { p with ship_count := p.ship_count + 1, production_timer := timer - time_per_ship }
    else
      { p with production_timer := timer }
  else p

/-- Iterated `Planet.update` over a list of frame times. -/
def Planet.updates (p : Planet) (dts : List ℚ) : Planet :=
  dts.foldl Planet.update p

/-- `Planet.update` never changes the position, radius, owner or intrinsic
production rate. -/
lemma Planet.update_preserves (p : Planet) (dt : ℚ) :
    (p.update dt).owner = p.owner ∧ (p.update dt).production_rate = p.production_rate := by
  unfold Planet.update
  split <;> [skip; exact ⟨rfl, rfl⟩]
  dsimp only
  split <;> exact ⟨rfl, rfl⟩

/-- Ship/timer bookkeeping of a single `Planet.update` call on a non-Neutral
planet: the ship increment `k` is 0 or 1, and the timer absorbs
`dt - k / production_rate`. -/
lemma Planet.update_conservation (p : Planet) (dt : ℚ) (h : p.owner ≠ Owner.Neutral) :
    ((p.update dt).ship_count = p.ship_count ∨ (p.update dt).ship_count = p.ship_count + 1) ∧
    (p.update dt).production_timer
      = p.production_timer + dt - ((p.update dt).ship_count - p.ship_count) * (1 / p.production_rate) := by
  unfold Planet.update
  rw [if_pos h]
  dsimp only
  split
  · refine ⟨Or.inr rfl, ?_⟩
    push_cast
    ring
  · refine ⟨Or.inl rfl, ?_⟩
    push_cast
    ring

/-- If the production timer is in `[0, 1/rate)` and the frame time is in
`[0, 1/rate]`, the timer stays in `[0, 1/rate)` after one update. -/
lemma Planet.update_timer_bounds (p : Planet) (d : ℚ)
    (hT : 0 < 1 / (p.production_rate : ℚ))
    (h0 : 0 ≤ p.production_timer) (h1 : p.production_timer < 1 / p.production_rate)
    (hd0 : 0 ≤ d) (hd1 : d ≤ 1 / p.production_rate) :
    0 ≤ (p.update d).production_timer ∧ (p.update d).production_timer < 1 / p.production_rate := by
  unfold Planet.update
  split
  · dsimp only
    split
    · constructor <;> dsimp only <;> linarith
    · constructor <;> dsimp only <;> linarith
  · exact ⟨h0, h1⟩

/-- Invariant of iterated updates with per-frame times bounded by one ship's
worth of production: owner, rate are preserved, the timer stays in
`[0, 1/rate)`, and `ship_count + timer·rate` increases by exactly
`(total elapsed time)·rate`. -/
lemma Planet.updates_invariant (dts : List ℚ) (p : Planet)
    (howner : p.owner ≠ Owner.Neutral) (hrate : 0 < p.production_rate)
    (h0 : 0 ≤ p.production_timer) (h1 : p.production_timer < 1 / p.production_rate)
    (hd : ∀ d ∈ dts, 0 ≤ d ∧ d ≤ 1 / (p.production_rate : ℚ)) :
    (p.updates dts).owner = p.owner ∧
    (p.updates dts).production_rate = p.production_rate ∧
    0 ≤ (p.updates dts).production_timer ∧
    (p.updates dts).production_timer < 1 / p.production_rate ∧
    ((p.updates dts).ship_count : ℚ) + (p.updates dts).production_timer * p.production_rate
      = p.ship_count + p.production_timer * p.production_rate + dts.sum * p.production_rate := by
  induction dts generalizing p with
  | nil =>
    refine ⟨rfl, rfl, h0, h1, ?_⟩
    simp [Planet.updates]
  | cons d rest ih =>
    have hrQ : (0 : ℚ) < (p.production_rate : ℚ) := by exact_mod_cast hrate
    have hT : 0 < 1 / (p.production_rate : ℚ) := by positivity
    have hdd := hd d (List.mem_cons_self d rest)
    have hpres := Planet.update_preserves p d
    have hbounds := Planet.update_timer_bounds p d hT h0 h1 hdd.1 hdd.2
    have hcons := Planet.update_conservation p d howner
    have hstep : (p.update d).updates rest = p.updates (d :: rest) := by
      simp [Planet.updates, List.foldl_cons]
    have ihx := ih (p.update d)
      (by rw [hpres.1]; exact howner)
      (by rw [hpres.2]; exact hrate)
      hbounds.1
      (by rw [hpres.2]; exact hbounds.2)
      (by
        intro e he
        rw [hpres.2]
        exact hd e (List.mem_cons_of_mem d he))
    rw [hstep] at ihx
    refine ⟨by rw [ihx.1, hpres.1], by rw [ihx.2.1, hpres.2], ihx.2.2.1, ?_, ?_⟩
    · rw [← hpres.2]; exact ihx.2.2.2.1
    · rw [hpres.2] at ihx
      rw [ihx.2.2.2.2, hcons.2]
      have hsum : (d :: rest).sum = d + rest.sum := List.sum_cons
      rcases hcons.1 with hk | hk <;>
        · rw [hk, hsum]
          push_cast
          field_simp
          ring

/-- C1, amended part: with each frame time in `[0, 1/rate]` and the timer
starting at 0, the ships produced over a list of frames is exactly
`⌊(total elapsed time)·rate⌋`. -/
lemma Planet.updates_floor (dts : List ℚ) (p : Planet)
    (howner : p.owner ≠ Owner.Neutral) (hrate : 0 < p.production_rate)
    (h0 : p.production_timer = 0)
    (hd : ∀ d ∈ dts, 0 ≤ d ∧ d ≤ 1 / (p.production_rate : ℚ)) :
    (p.updates dts).ship_count = p.ship_count + ⌊dts.sum * (p.production_rate : ℚ)⌋ := by
  have hrQ : (0 : ℚ) < (p.production_rate : ℚ) := by exact_mod_cast hrate
  have hT : 0 < 1 / (p.production_rate : ℚ) := by positivity
  obtain ⟨-, -, ht0, ht1, hsum⟩ :=
    Planet.updates_invariant dts p howner hrate (le_of_eq h0.symm) (by rw [h0]; exact hT) hd
  rw [h0] at hsum
  have hfrac0 : 0 ≤ (p.updates dts).production_timer * (p.production_rate : ℚ) := by positivity
  have hfrac1 : (p.updates dts).production_timer * (p.production_rate : ℚ) < 1 := by
    calc (p.updates dts).production_timer * (p.production_rate : ℚ)
        < (1 / (p.production_rate : ℚ)) * (p.production_rate : ℚ) :=
          mul_lt_mul_of_pos_right ht1 hrQ
      _ = 1 := by field_simp
  have key : dts.sum * (p.production_rate : ℚ)
      = ((p.updates dts).ship_count - p.ship_count : ℤ)
        + (p.updates dts).production_timer * (p.production_rate : ℚ) := by
    push_cast
    linarith
  rw [key, Int.floor_int_add]
  have : ⌊(p.updates dts).production_timer * (p.production_rate : ℚ)⌋ = 0 :=
    Int.floor_eq_zero_iff.mpr ⟨hfrac0, hfrac1⟩
  rw [this]
  ring

/-- C1 (counterexample): the claim asserts that a single `update(T)` call on
an owned planet yields `ship_count = initial + ⌊T·r⌋` within one unit, with
multiple ship increments in one large dt.  The code's `Planet.update` uses a
single `if`, so one call adds at most one ship: for a Player planet with
production rate 1 and timer 0, a single `update 5` yields 1 ship, while
`initial + ⌊5·1⌋ = 5`, off by 4 > 1. -/
theorem C1_single_large_update_cex :
    (Planet.update
      { x := 0, y := 0, radius := 30, owner := Owner.Player, ship_count := 0,
        production_rate := 1, production_timer := 0 } 5).ship_count = 1 ∧
    ¬ |(Planet.update
      { x := 0, y := 0, radius := 30, owner := Owner.Player, ship_count := 0,
        production_rate := 1, production_timer := 0 } 5).ship_count
        - (0 + ⌊(5 : ℚ) * (1 : ℤ)⌋)| ≤ 1 := by
  have h1 : (Planet.update
      { x := 0, y := 0, radius := 30, owner := Owner.Player, ship_count := 0,
        production_rate := 1, production_timer := 0 } 5).ship_count = 1 := by
    unfold Planet.update
    rw [if_pos (by decide)]
    dsimp only
    rw [if_pos (by norm_num)]
    norm_num
  refine ⟨h1, ?_⟩
  rw [h1, show (⌊(5 : ℚ) * ((1 : ℤ) : ℚ)⌋ : ℤ) = 5 by norm_num]
  decide

/-- C1 (amended): for a planet with a fixed non-Neutral owner and positive
production rate `r` whose accumulator starts at 0, delivering the elapsed
time as many update calls whose frame times are each in `[0, 1/r]` and sum
to `T` yields `ship_count = initial + ⌊T·r⌋` exactly; a single large-dt
call does not enjoy this (it produces at most one ship, see C9). -/
theorem C1_production_floor_small_steps (p : Planet) (dts : List ℚ)
    (howner : p.owner ≠ Owner.Neutral) (hrate : 0 < p.production_rate)
    (h0 : p.production_timer = 0)
    (hd : ∀ d ∈ dts, 0 ≤ d ∧ d ≤ 1 / (p.production_rate : ℚ)) :
    (p.updates dts).ship_count = p.ship_count + ⌊dts.sum * (p.production_rate : ℚ)⌋ :=
  Planet.updates_floor dts p howner hrate h0 hd

/-- C1 witness: a rate-1 Player planet advanced by three half-second frames
produces `⌊3/2⌋ = 1` ship. -/
theorem C1_production_floor_small_steps_witness :
    (Planet.updates
      { x := 0, y := 0, radius := 30, owner := Owner.Player, ship_count := 10,
        production_rate := 1, production_timer := 0 } [1/2, 1/2, 1/2]).ship_count
      = 10 + ⌊([(1:ℚ)/2, 1/2, 1/2].sum * ((1 : ℤ) : ℚ))⌋ :=
  C1_production_floor_small_steps _ _ (by decide) (by decide) rfl
    (by intro d hd; fin_cases hd <;> norm_num)

/-- C9: a single `Planet.update` call adds at most one ship however large
`dt` is, and for an owned planet the accumulator retains exactly the elapsed
time not converted into ships (`timer' = timer + dt - k/r` where `k` is the
number of ships added this call). -/
theorem C9_at_most_one_ship_per_update (p : Planet) (dt : ℚ) (hdt : 0 ≤ dt) :
    (p.update dt).ship_count ≤ p.ship_count + 1 ∧
    (p.owner ≠ Owner.Neutral →
      (p.update dt).production_timer
        = p.production_timer + dt
          - ((p.update dt).ship_count - p.ship_count) * (1 / (p.production_rate : ℚ))) := by
  constructor
  · by_cases h : p.owner = Owner.Neutral
    · unfold Planet.update
      rw [if_neg (by simp [h])]
      omega
    · rcases (Planet.update_conservation p dt h).1 with hk | hk <;> omega
  · intro h
    exact (Planet.update_conservation p dt h).2

/-- C9 witness: an Enemy planet of production rate 2 with empty accumulator
and `dt = 10` gains exactly one ship, and the accumulator retains
`10 - 1/2`. -/
theorem C9_at_most_one_ship_per_update_witness :
    ((0 : ℚ) ≤ 10) ∧
    ((Planet.update
        { x := 0, y := 0, radius := 30, owner := Owner.Enemy, ship_count := 4,
          production_rate := 2, production_timer := 0 } 10).ship_count ≤ 4 + 1 ∧
      (Owner.Enemy ≠ Owner.Neutral →
        (Planet.update
          { x := 0, y := 0, radius := 30, owner := Owner.Enemy, ship_count := 4,
            production_rate := 2, production_timer := 0 } 10).production_timer
          = 0 + 10
            - ((Planet.update
                { x := 0, y := 0, radius := 30, owner := Owner.Enemy, ship_count := 4,
                  production_rate := 2, production_timer := 0 } 10).ship_count - 4)
              * (1 / ((2 : ℤ) : ℚ)))) :=
  ⟨by norm_num,
    C9_at_most_one_ship_per_update
      { x := 0, y := 0, radius := 30, owner := Owner.Enemy, ship_count := 4,
        production_rate := 2, production_timer := 0 } 10 (by norm_num)⟩

/-- C10: `Planet.update` on a Neutral planet changes nothing at all — in
particular the ship count stays put and the production accumulator does not
advance. -/
theorem C10_neutral_update_noop (p : Planet) (dt : ℚ) (h : p.owner = Owner.Neutral) :
    p.update dt = p := by
  unfold Planet.update
  rw [if_neg (by simp [h])]

/-- C10 witness: a concrete Neutral planet is untouched by `update 7`. -/
theorem C10_neutral_update_noop_witness :
    Planet.update
      { x := 1, y := 2, radius := 25, owner := Owner.Neutral, ship_count := 12,
        production_rate := 1, production_timer := 0 } 7
    = { x := 1, y := 2, radius := 25, owner := Owner.Neutral, ship_count := 12,
        production_rate := 1, production_timer := 0 } :=
  C10_neutral_update_noop _ 7 rfl

/-- The state of `abilities.Ability`.  Planet targets are modelled as planet
indices (`Option ℕ`): the Python code stores an object reference and later
compares it by identity. -/
structure Ability where
  available : Bool
  active : Bool
  duration : ℚ
  time_remaining : ℚ
  target : Option ℕ
deriving DecidableEq, Repr

/-- `Ability.__init__(name, duration)`: starts available, inactive, with no
time remaining and no target. -/
def Ability.create (duration : ℚ) : Ability :=
  { available := true, active := false, duration := duration,
    time_remaining := 0, target := none }

/-- `Ability.activate(target)`: succeeds iff `available and not active`; on
success flips `available` off, `active` on, resets `time_remaining` to the
duration and stores the target.  Returns the success flag together with the
updated state. -/
def Ability.activate (a : Ability) (target : Option ℕ) : Bool × Ability :=
  if a.available && !a.active then
    (true, { a with available := false, active := true,
                    time_remaining := a.duration, target := target })
  else
    (false, a)

/-- `Ability.update(dt)`: while an ability with positive duration is active,
its remaining time ticks down; at 0 it deactivates and clears the target. -/
def Ability.update (a : Ability) (dt : ℚ) : Ability :=
  if a.active = true ∧ a.duration > 0 then
    let t := a.time_remaining - dt
    if t ≤ 0 then { a with active := false, time_remaining := 0, target := none }
    else { a with time_remaining := t }
  else a

/-- `Ability.update` never resurrects availability. -/
lemma Ability.update_available (a : Ability) (dt : ℚ) :
    (a.update dt).available = a.available := by
  unfold Ability.update
  split <;> [skip; rfl]
  dsimp only
  split <;> rfl

/-- Availability is preserved by any sequence of `Ability.update` calls. -/
lemma Ability.foldl_update_available (dts : List ℚ) (a : Ability) :
    (dts.foldl Ability.update a).available = a.available := by
  induction dts generalizing a with
  | nil => rfl
  | cons d rest ih =>
    rw [List.foldl_cons, ih, Ability.update_available]

/-- A consumed (unavailable) ability refuses activation and is unchanged. -/
lemma Ability.activate_of_not_available (a : Ability) (t : Option ℕ)
    (h : a.available = false) : a.activate t = (false, a) := by
  unfold Ability.activate
  rw [if_neg]
  simp [h]

/-- C8: `activate` returns true iff `available && !active` held at the call;
on success it sets `available := false`, `active := true`,
`time_remaining := duration` and stores the target; on failure it changes
nothing; and after a success, any number of `update` calls later, a second
`activate` always returns false and leaves the state unchanged, so no
ability is ever reactivated once consumed. -/
theorem C8_ability_single_use (a : Ability) (t : Option ℕ) :
    (a.activate t).1 = (a.available && !a.active) ∧
    ((a.activate t).1 = true →
      (a.activate t).2 = { a with available := false, active := true,
                                  time_remaining := a.duration, target := t }) ∧
    ((a.activate t).1 = false → (a.activate t).2 = a) ∧
    (∀ (dts : List ℚ) (t2 : Option ℕ), (a.activate t).1 = true →
      ((dts.foldl Ability.update (a.activate t).2).activate t2).1 = false ∧
      ((dts.foldl Ability.update (a.activate t).2).activate t2).2
        = dts.foldl Ability.update (a.activate t).2) := by
  by_cases h : (a.available && !a.active) = true
  · refine ⟨by simp [Ability.activate, h], ?_, ?_, ?_⟩
    · intro _
      simp [Ability.activate, h]
    · intro hfalse
      rw [Ability.activate, if_pos h] at hfalse
      exact absurd hfalse (by simp)
    · intro dts t2 _
      have hsnd : (a.activate t).2.available = false := by
        simp [Ability.activate, h]
      have havail : (dts.foldl Ability.update (a.activate t).2).available = false := by
        rw [Ability.foldl_update_available, hsnd]
      have hres :=
        Ability.activate_of_not_available (dts.foldl Ability.update (a.activate t).2) t2 havail
      exact ⟨by rw [hres], by rw [hres]⟩
  · refine ⟨by simp [Ability.activate, h], ?_, ?_, ?_⟩
    · intro htrue
      rw [Ability.activate, if_neg h] at htrue
      exact absurd htrue (by simp)
    · intro _
      simp [Ability.activate, h]
    · intro dts t2 htrue
      rw [Ability.activate, if_neg h] at htrue
      exact absurd htrue (by simp)

/-- C8 witness: the Production Surge ability (duration 10) activated once and
then updated by 3 seconds refuses a second activation and is left unchanged
by it. -/
theorem C8_ability_single_use_witness :
    (([(3 : ℚ)].foldl Ability.update ((Ability.create 10).activate none).2).activate
        (some 0)).1 = false ∧
    (([(3 : ℚ)].foldl Ability.update ((Ability.create 10).activate none).2).activate
        (some 0)).2
      = [(3 : ℚ)].foldl Ability.update ((Ability.create 10).activate none).2 :=
  (C8_ability_single_use (Ability.create 10) none).2.2.2 [(3 : ℚ)] (some 0) rfl

/-- Python's built-in `int()` on a rational value: truncation toward zero,
as applied in `int(attacking_force * 0.5)`. -/
def pythonInt (q : ℚ) : ℤ :=
  if q < 0 then ⌈q⌉ else ⌊q⌋

/-- One side's cumulative statistics tracker
(`player_stats_tracker` / `enemy_stats_tracker`). -/
structure Stats where
  ships_produced : ℤ
  battles_won : ℤ
  battles_lost : ℤ
deriving DecidableEq, Repr

/-- The fields of `entities.Ship` that matter for arrival resolution and the
AI: owner, fleet size, and origin/destination planet indices. -/
structure Fleet where
  owner : Owner
  size : ℤ
  source : ℕ
  target : ℕ
deriving DecidableEq, Repr

/-- The slice of `GameState` read and written by `_handle_ship_arrival` for
one arriving fleet: the target planet (with its index, standing in for the
Python object identity used in `shield.target == planet`), both sides' shield
ability state, both stat trackers, and the tactical penalty accumulator. -/
structure ArrivalState where
  planet : Planet
  planetId : ℕ
  playerShieldActive : Bool
  playerShieldTarget : Option ℕ
  enemyShieldActive : Bool
  enemyShieldTarget : Option ℕ
  player_stats : Stats
  enemy_stats : Stats
  tactical_penalties : ℤ
deriving DecidableEq, Repr

/-- The shield check of `_handle_ship_arrival`: the defending planet's own
side has an active Shield whose stored target is this very planet. -/
def shieldReduces (s : ArrivalState) : Bool :=
  match s.planet.owner with
  | Owner.Player => s.playerShieldActive && decide (s.playerShieldTarget = some s.planetId)
  | Owner.Enemy => s.enemyShieldActive && decide (s.enemyShieldTarget = some s.planetId)
  | Owner.Neutral => false

/-- The `attacking_force` local of `_handle_ship_arrival`: the fleet size,
halved via `int(attacking_force * 0.5)` when the defender's shield covers
the target planet. -/
def attackingForce (s : ArrivalState) (f : Fleet) : ℤ :=
  if shieldReduces s then pythonInt ((f.size : ℚ) * (1/2)) else f.size

/-- `GameState._handle_ship_arrival(ship)`: reinforcement when owners match;
otherwise combat by subtraction, with shield halving
(`int(attacking_force * 0.5)`), owner flip on non-positive remainder, and the
battles-won/lost and tactical-penalty bookkeeping.  Sound-effect hooks are
dropped. -/
def handleShipArrival (s : ArrivalState) (f : Fleet) : ArrivalState :=
  let planet := s.planet
  let original_owner := planet.owner
  if f.owner = planet.owner then
    { s with planet := { planet with ship_count := planet.ship_count + f.size } }
  else
    let attacking_force := attackingForce s f
    let new_count := planet.ship_count - attacking_force
    if new_count < 0 then
      let s1 := { s with planet := { planet with owner := f.owner, ship_count := |new_count| } }
      let s2 :=
        if f.owner = Owner.Player then
          { s1 with player_stats :=
              { s1.player_stats with battles_won := s1.player_stats.battles_won + 1 } }
        else
          { s1 with enemy_stats :=
              { s1.enemy_stats with battles_won := s1.enemy_stats.battles_won + 1 } }
      if original_owner = Owner.Player then
        { s2 with
            player_stats :=
              { s2.player_stats with battles_lost := s2.player_stats.battles_lost + 1 },
            tactical_penalties := s2.tactical_penalties + 10 }
      else if original_owner = Owner.Enemy then
        { s2 with enemy_stats :=
            { s2.enemy_stats with battles_lost := s2.enemy_stats.battles_lost + 1 } }
      else s2
    else if new_count = 0 then
      let s1 := { s with planet := { planet with owner := f.owner, ship_count := 0 } }
      let s2 :=
        if f.owner = Owner.Player then
          { s1 with player_stats :=
              { s1.player_stats with battles_won := s1.player_stats.battles_won + 1 } }
        else
          { s1 with enemy_stats :=
              { s1.enemy_stats with battles_won := s1.enemy_stats.battles_won + 1 } }
      if original_owner = Owner.Player then
        { s2 with
            player_stats :=
              { s2.player_stats with battles_lost := s2.player_stats.battles_lost + 1 },
            tactical_penalties := s2.tactical_penalties + 10 }
      else if original_owner = Owner.Enemy then
        { s2 with enemy_stats :=
            { s2.enemy_stats with battles_lost := s2.enemy_stats.battles_lost + 1 } }
      else s2
    else
      let s1 := { s with planet := { planet with ship_count := new_count } }
      let s2 :=
        if f.owner = Owner.Player then
          { s1 with
              player_stats :=
                { s1.player_stats with battles_lost := s1.player_stats.battles_lost + 1 },
              tactical_penalties := s1.tactical_penalties + 5 }
        else
          { s1 with enemy_stats :=
              { s1.enemy_stats with battles_lost := s1.enemy_stats.battles_lost + 1 } }
      if planet.owner = Owner.Player then
        { s2 with player_stats :=
            { s2.player_stats with battles_won := s2.player_stats.battles_won + 1 } }
      else if planet.owner = Owner.Enemy then
        { s2 with enemy_stats :=
            { s2.enemy_stats with battles_won := s2.enemy_stats.battles_won + 1 } }
      else s2

/-- For a non-negative fleet size, Python's truncating halving
`int(size * 0.5)` is the floor of `size / 2`. -/
lemma pythonInt_half (n : ℤ) (h : 0 ≤ n) :
    pythonInt ((n : ℚ) * (1/2)) = ⌊(n : ℚ) / 2⌋ := by
  unfold pythonInt
  rw [if_neg]
  · congr 1
    ring
  · push_neg
    positivity

/-- C2: arrival resolution is deterministic.  Reinforcement adds the fleet
size with no other change; an attack subtracts the attacking force — the
fleet size, floor-halved when the defender's shield covers the planet — and
the planet flips to the attacker iff the remainder is ≤ 0, keeping
`|remainder|` ships; a Player-owned planet lost adds 10 tactical penalties, a
failed Player attack adds 5, and battles-won/lost counters are updated for
both sides accordingly. -/
theorem C2_arrival_resolution (s : ArrivalState) (f : Fleet) (hsize : 0 ≤ f.size) :
    (shieldReduces s = true → attackingForce s f = ⌊(f.size : ℚ) / 2⌋) ∧
    (shieldReduces s = false → attackingForce s f = f.size) ∧
    (f.owner = s.planet.owner →
      handleShipArrival s f
        = { s with planet := { s.planet with ship_count := s.planet.ship_count + f.size } }) ∧
    (f.owner ≠ s.planet.owner →
      (handleShipArrival s f).planet.owner
          = (if s.planet.ship_count - attackingForce s f ≤ 0 then f.owner else s.planet.owner) ∧
      (handleShipArrival s f).planet.ship_count
          = |s.planet.ship_count - attackingForce s f| ∧
      (handleShipArrival s f).tactical_penalties
          = s.tactical_penalties
            + (if s.planet.ship_count - attackingForce s f ≤ 0 ∧ s.planet.owner = Owner.Player
               then 10
               else if 0 < s.planet.ship_count - attackingForce s f ∧ f.owner = Owner.Player
               then 5 else 0) ∧
      (handleShipArrival s f).player_stats.battles_won
          = s.player_stats.battles_won
            + (if (s.planet.ship_count - attackingForce s f ≤ 0 ∧ f.owner = Owner.Player)
                  ∨ (0 < s.planet.ship_count - attackingForce s f ∧ s.planet.owner = Owner.Player)
               then 1 else 0) ∧
      (handleShipArrival s f).player_stats.battles_lost
          = s.player_stats.battles_lost
            + (if (s.planet.ship_count - attackingForce s f ≤ 0 ∧ s.planet.owner = Owner.Player)
                  ∨ (0 < s.planet.ship_count - attackingForce s f ∧ f.owner = Owner.Player)
               then 1 else 0) ∧
      (handleShipArrival s f).enemy_stats.battles_won
          = s.enemy_stats.battles_won
            + (if (s.planet.ship_count - attackingForce s f ≤ 0 ∧ f.owner ≠ Owner.Player)
                  ∨ (0 < s.planet.ship_count - attackingForce s f ∧ s.planet.owner = Owner.Enemy)
               then 1 else 0) ∧
      (handleShipArrival s f).enemy_stats.battles_lost
          = s.enemy_stats.battles_lost
            + (if (s.planet.ship_count - attackingForce s f ≤ 0 ∧ s.planet.owner = Owner.Enemy)
                  ∨ (0 < s.planet.ship_count - attackingForce s f ∧ f.owner ≠ Owner.Player)
               then 1 else 0) ∧
      (handleShipArrival s f).player_stats.ships_produced = s.player_stats.ships_produced ∧
      (handleShipArrival s f).enemy_stats.ships_produced = s.enemy_stats.ships_produced) := by
  refine ⟨?_, ?_, ?_, ?_⟩
  · intro h
    unfold attackingForce
    rw [if_pos h, pythonInt_half f.size hsize]
  · intro h
    unfold attackingForce
    rw [if_neg (by simp [h])]
  · intro h
    simp only [handleShipArrival]
    rw [if_pos h]
  · intro hne
    simp only [handleShipArrival]
    rw [if_neg hne]
    rcases lt_trichotomy (s.planet.ship_count - attackingForce s f) 0 with hrem | hrem | hrem
    · have hle : s.planet.ship_count - attackingForce s f ≤ 0 := le_of_lt hrem
      have hle' : s.planet.ship_count ≤ attackingForce s f := by omega
      have habs : |s.planet.ship_count - attackingForce s f|
          = attackingForce s f - s.planet.ship_count := by
        rw [abs_of_neg hrem]
        ring
      rw [if_pos hrem]
      by_cases hfp : f.owner = Owner.Player <;>
        rcases hpo : s.planet.owner with _ | _ | _ <;>
          simp_all <;> omega
    · have hle : s.planet.ship_count - attackingForce s f ≤ 0 := le_of_eq hrem
      have hle' : s.planet.ship_count ≤ attackingForce s f := by omega
      have habs : |s.planet.ship_count - attackingForce s f| = 0 := by
        rw [hrem]
        exact abs_zero
      rw [if_neg (by omega), if_pos hrem]
      by_cases hfp : f.owner = Owner.Player <;>
        rcases hpo : s.planet.owner with _ | _ | _ <;>
          simp_all <;> omega
    · rw [if_neg (by omega), if_neg (by omega)]
      by_cases hfp : f.owner = Owner.Player <;>
        rcases hpo : s.planet.owner with _ | _ | _ <;>
          simp_all [abs_of_pos hrem] <;>
          first
            | omega
            | rw [if_neg (by omega : ¬ (s.planet.ship_count ≤ attackingForce s f))]

/-- C2 witness: a Player fleet of 25 hitting an unshielded Neutral planet of
10 captures it with 15 ships and no tactical penalty. -/
theorem C2_arrival_resolution_witness :
    (0 : ℤ) ≤ 25 ∧
    (handleShipArrival
      { planet := { x := 0, y := 0, radius := 30, owner := Owner.Neutral, ship_count := 10,
                    production_rate := 1, production_timer := 0 },
        planetId := 0,
        playerShieldActive := false, playerShieldTarget := none,
        enemyShieldActive := false, enemyShieldTarget := none,
        player_stats := { ships_produced := 0, battles_won := 0, battles_lost := 0 },
        enemy_stats := { ships_produced := 0, battles_won := 0, battles_lost := 0 },
        tactical_penalties := 0 }
      { owner := Owner.Player, size := 25, source := 0, target := 0 }).planet.owner
        = Owner.Player ∧
    (handleShipArrival
      { planet := { x := 0, y := 0, radius := 30, owner := Owner.Neutral, ship_count := 10,
                    production_rate := 1, production_timer := 0 },
        planetId := 0,
        playerShieldActive := false, playerShieldTarget := none,
        enemyShieldActive := false, enemyShieldTarget := none,
        player_stats := { ships_produced := 0, battles_won := 0, battles_lost := 0 },
        enemy_stats := { ships_produced := 0, battles_won := 0, battles_lost := 0 },
        tactical_penalties := 0 }
      { owner := Owner.Player, size := 25, source := 0, target := 0 }).planet.ship_count
        = 15 := by
  refine ⟨by norm_num, ?_, ?_⟩
  · rw [((C2_arrival_resolution _ _ (by norm_num)).2.2.2 (by decide)).1]
    decide
  · rw [((C2_arrival_resolution _ _ (by norm_num)).2.2.2 (by decide)).2.1]
    decide

/-- `GameState._send_fleet`: the requested count is clamped to the source's
availability; if the clamped count is ≤ 0 nothing happens, otherwise the
count is deducted from the source and a fleet of that size is created
(returned here as `some count`). -/
def sendFleet (source : Planet) (ship_count : ℤ) : Planet × Option ℤ :=
  let c := if source.ship_count < ship_count then source.ship_count else ship_count
  if c ≤ 0 then (source, none)
  else ({ source with ship_count := source.ship_count - c }, some c)

/-- The loop body of `GameState.activate_recall`: an owned in-transit fleet
credits its full size back to its origin planet. -/
def recallCredit (p : Planet) (fleetSize : ℤ) : Planet :=
  { p with ship_count := p.ship_count + fleetSize }

/-- C3: every mutating operation of the core keeps every planet's ship count
non-negative: production updates only add ships; `_send_fleet` clamps to
availability (and only ever launches positive fleets); arrival resolution
leaves `|remainder|`, `0`, or a positive remainder behind; recall credits
only add. -/
theorem C3_ship_count_nonneg :
    (∀ (p : Planet) (dt : ℚ), 0 ≤ p.ship_count → 0 ≤ (p.update dt).ship_count) ∧
    (∀ (p : Planet) (n : ℤ), 0 ≤ p.ship_count →
      0 ≤ (sendFleet p n).1.ship_count ∧
      ∀ c, (sendFleet p n).2 = some c → 0 < c) ∧
    (∀ (s : ArrivalState) (f : Fleet), 0 ≤ s.planet.ship_count → 0 ≤ f.size →
      0 ≤ (handleShipArrival s f).planet.ship_count) ∧
    (∀ (p : Planet) (sz : ℤ), 0 ≤ p.ship_count → 0 ≤ sz →
      0 ≤ (recallCredit p sz).ship_count) := by
  refine ⟨?_, ?_, ?_, ?_⟩
  · intro p dt hp
    rcases hown : p.owner with _ | _ | _
    · rcases (Planet.update_conservation p dt (by simp [hown])).1 with hk | hk <;> omega
    · rcases (Planet.update_conservation p dt (by simp [hown])).1 with hk | hk <;> omega
    · rw [C10_neutral_update_noop p dt hown]
      exact hp
  · intro p n hp
    unfold sendFleet
    refine ⟨?_, ?_⟩
    · dsimp only
      split_ifs <;> dsimp only <;> omega
    · intro c hc
      dsimp only at hc
      split_ifs at hc <;> simp_all <;> omega
  · intro s f hp hf
    have h := C2_arrival_resolution s f hf
    by_cases hown : f.owner = s.planet.owner
    · rw [h.2.2.1 hown]
      dsimp only
      omega
    · have := (h.2.2.2 hown).2.1
      rw [this]
      exact abs_nonneg _
  · intro p sz hp hsz
    unfold recallCredit
    dsimp only
    omega

/-- C3 witness: the four non-negativity facts at concrete inputs. -/
theorem C3_ship_count_nonneg_witness :
    0 ≤ (Planet.update
      { x := 0, y := 0, radius := 30, owner := Owner.Player, ship_count := 0,
        production_rate := 1, production_timer := 0 } (1/4)).ship_count ∧
    0 ≤ (sendFleet
      { x := 0, y := 0, radius := 30, owner := Owner.Player, ship_count := 3,
        production_rate := 1, production_timer := 0 } 8).1.ship_count ∧
    0 ≤ (handleShipArrival
      { planet := { x := 0, y := 0, radius := 30, owner := Owner.Neutral, ship_count := 10,
                    production_rate := 1, production_timer := 0 },
        planetId := 0,
        playerShieldActive := false, playerShieldTarget := none,
        enemyShieldActive := false, enemyShieldTarget := none,
        player_stats := { ships_produced := 0, battles_won := 0, battles_lost := 0 },
        enemy_stats := { ships_produced := 0, battles_won := 0, battles_lost := 0 },
        tactical_penalties := 0 }
      { owner := Owner.Enemy, size := 12, source := 0, target := 0 }).planet.ship_count ∧
    0 ≤ (recallCredit
      { x := 0, y := 0, radius := 30, owner := Owner.Player, ship_count := 3,
        production_rate := 1, production_timer := 0 } 20).ship_count :=
  ⟨C3_ship_count_nonneg.1 _ (1/4) (by norm_num),
   (C3_ship_count_nonneg.2.1 _ 8 (by norm_num)).1,
   C3_ship_count_nonneg.2.2.1 _ _ (by norm_num) (by norm_num),
   C3_ship_count_nonneg.2.2.2 _ 20 (by norm_num) (by norm_num)⟩

/-- AI difficulty level (`SimpleAI.__init__`'s `difficulty` argument; any
string other than "easy"/"medium" selects the hard branch). -/
inductive Difficulty where
  | easy
  | medium
  | hard
deriving DecidableEq, Repr

/-- The per-difficulty tuning fields set in `SimpleAI.__init__`. -/
structure AIConfig where
  decision_interval : ℚ
  aggression : ℚ
  min_ships_to_attack : ℤ
  use_abilities : Bool
deriving DecidableEq, Repr

/-- `SimpleAI.__init__`: easy (3.0s, 0.3, 20, no abilities),
medium (2.0s, 0.5, 10, no abilities), hard (1.0s, 0.7, 5, abilities). -/
def aiConfig : Difficulty → AIConfig
  | Difficulty.easy =>
    { decision_interval := 3, aggression := 3/10, min_ships_to_attack := 20,
      use_abilities := false }
  | Difficulty.medium =>
    { decision_interval := 2, aggression := 5/10, min_ships_to_attack := 10,
      use_abilities := false }
  | Difficulty.hard =>
    { decision_interval := 1, aggression := 7/10, min_ships_to_attack := 5,
      use_abilities := true }

/-- `SimpleAI._should_attack`: send `int(source.ship_count * aggression)`
ships; refuse when that is 0; attack a Neutral target iff it exceeds the
garrison, any other (Player) target iff it exceeds the garrison times the
safety margin (1.5 on easy, 1.2 otherwise). -/
def shouldAttack (diff : Difficulty) (source target : Planet) : Bool :=
  let ships_to_send := pythonInt ((source.ship_count : ℚ) * (aiConfig diff).aggression)
  if ships_to_send = 0 then false
  else if target.owner = Owner.Neutral then decide (ships_to_send > target.ship_count)
  else
    let safety_margin : ℚ := if diff = Difficulty.easy then 3/2 else 6/5
    decide ((ships_to_send : ℚ) > (target.ship_count : ℚ) * safety_margin)

/-- The per-source body of `SimpleAI.make_decision`: a source below
`min_ships_to_attack` is skipped; with no candidate target (empty target
list, modelled as `none`) nothing is emitted; otherwise at most one
`send_fleet` action for the selected best target is emitted, gated by
`_should_attack` and carrying `int(source.ship_count * aggression)` ships
(re-checked positive). -/
def decideForSource (diff : Difficulty) (source : Planet) (best : Option Planet) :
    Option (Planet × ℤ) :=
  if source.ship_count < (aiConfig diff).min_ships_to_attack then none
  else
    match best with
    | none => none
    | some target =>
      if shouldAttack diff source target then
        let ships_to_send := pythonInt ((source.ship_count : ℚ) * (aiConfig diff).aggression)
        if ships_to_send > 0 then some (target, ships_to_send) else none
      else none

/-- Truncation agrees with the floor on non-negative rationals. -/
lemma pythonInt_eq_floor (q : ℚ) (h : 0 ≤ q) : pythonInt q = ⌊q⌋ :=
  if_neg (not_lt.mpr h)

/-- C4: the per-difficulty parameters are exactly the claimed tune table,
and for a source planet with a non-negative garrison the AI emits a
`send_fleet` action iff the source meets `min_ships_to_attack`,
`ships_to_send = ⌊source.ship_count * aggression⌋` is non-zero, and it
exceeds the target's garrison (Neutral target) resp. the garrison times the
safety margin (Player target); the emitted action carries exactly
`ships_to_send` ships, and at most one action is emitted per source. -/
theorem C4_ai_attack_gate (diff : Difficulty) :
    aiConfig Difficulty.easy
      = { decision_interval := 3, aggression := 3/10, min_ships_to_attack := 20,
          use_abilities := false } ∧
    aiConfig Difficulty.medium
      = { decision_interval := 2, aggression := 5/10, min_ships_to_attack := 10,
          use_abilities := false } ∧
    aiConfig Difficulty.hard
      = { decision_interval := 1, aggression := 7/10, min_ships_to_attack := 5,
          use_abilities := true } ∧
    ∀ (source target : Planet), 0 ≤ source.ship_count →
      (decideForSource diff source none = none) ∧
      ((decideForSource diff source (some target)).isSome = true ↔
        ((aiConfig diff).min_ships_to_attack ≤ source.ship_count ∧
         ⌊(source.ship_count : ℚ) * (aiConfig diff).aggression⌋ ≠ 0 ∧
         (if target.owner = Owner.Neutral then
            ⌊(source.ship_count : ℚ) * (aiConfig diff).aggression⌋ > target.ship_count
          else
            ((⌊(source.ship_count : ℚ) * (aiConfig diff).aggression⌋ : ℚ)
              > (target.ship_count : ℚ) * (if diff = Difficulty.easy then 3/2 else 6/5))))) ∧
      (∀ t n, decideForSource diff source (some target) = some (t, n) →
        t = target ∧ n = ⌊(source.ship_count : ℚ) * (aiConfig diff).aggression⌋) := by
  refine ⟨rfl, rfl, rfl, ?_⟩
  intro source target hsc
  have haggr : (0 : ℚ) ≤ (aiConfig diff).aggression := by
    cases diff <;> norm_num [aiConfig]
  have hprod : (0 : ℚ) ≤ (source.ship_count : ℚ) * (aiConfig diff).aggression := by
    have : (0 : ℚ) ≤ (source.ship_count : ℚ) := by exact_mod_cast hsc
    positivity
  set q : ℚ := (source.ship_count : ℚ) * (aiConfig diff).aggression with hq
  set n : ℤ := ⌊q⌋ with hn
  have hfl : pythonInt q = n := pythonInt_eq_floor q hprod
  have hfl0 : 0 ≤ n := hn ▸ Int.floor_nonneg.mpr hprod
  have key : decideForSource diff source (some target)
      = if ((aiConfig diff).min_ships_to_attack ≤ source.ship_count ∧ n ≠ 0 ∧
            (if target.owner = Owner.Neutral then n > target.ship_count
             else ((n : ℚ) > (target.ship_count : ℚ)
                     * (if diff = Difficulty.easy then 3/2 else 6/5))))
        then some (target, n) else none := by
    unfold decideForSource shouldAttack
    rw [← hq, hfl]
    by_cases hmin : source.ship_count < (aiConfig diff).min_ships_to_attack
    · rw [if_pos hmin, if_neg (by rintro ⟨h, -⟩; omega)]
    · rw [if_neg hmin]
      dsimp only
      by_cases hz : n = 0
      · rw [if_pos hz, if_neg (by simp), if_neg (by rintro ⟨-, h, -⟩; exact h hz)]
      · rw [if_neg hz]
        have hpos : 0 < n := by omega
        by_cases hneut : target.owner = Owner.Neutral
        · rw [if_pos hneut]
          by_cases hgt : n > target.ship_count
          · rw [if_pos (by simpa using hgt), if_pos hpos,
              if_pos ⟨by omega, hz, by rw [if_pos hneut]; exact hgt⟩]
          · rw [if_neg (by simpa using hgt),
              if_neg (by rintro ⟨-, -, hg⟩; rw [if_pos hneut] at hg; exact hgt hg)]
        · rw [if_neg hneut]
          by_cases hgt : (n : ℚ) > (target.ship_count : ℚ)
              * (if diff = Difficulty.easy then 3/2 else 6/5)
          · rw [if_pos (by simpa using hgt), if_pos hpos,
              if_pos ⟨by omega, hz, by rw [if_neg hneut]; exact hgt⟩]
          · rw [if_neg (by simpa using hgt),
              if_neg (by rintro ⟨-, -, hg⟩; rw [if_neg hneut] at hg; exact hgt hg)]
  refine ⟨?_, ?_, ?_⟩
  · unfold decideForSource
    split <;> rfl
  · rw [key]
    split_ifs <;> simp_all
  · intro t m hsome
    rw [key] at hsome
    split_ifs at hsome <;>
      first
        | (cases hsome; exact ⟨rfl, rfl⟩)
        | exact absurd hsome (by simp)

/-- C4 witness: on medium difficulty, a 100-ship source against a 40-ship
Neutral target fires with `⌊100·0.5⌋ = 50` ships. -/
theorem C4_ai_attack_gate_witness :
    ((0 : ℤ) ≤ 100) ∧
    (decideForSource Difficulty.medium
      { x := 0, y := 0, radius := 30, owner := Owner.Enemy, ship_count := 100,
        production_rate := 1, production_timer := 0 }
      (some { x := 500, y := 0, radius := 30, owner := Owner.Neutral, ship_count := 40,
              production_rate := 1, production_timer := 0 })).isSome = true := by
  refine ⟨by norm_num, ?_⟩
  rw [((C4_ai_attack_gate Difficulty.medium).2.2.2
    { x := 0, y := 0, radius := 30, owner := Owner.Enemy, ship_count := 100,
      production_rate := 1, production_timer := 0 }
    { x := 500, y := 0, radius := 30, owner := Owner.Neutral, ship_count := 40,
      production_rate := 1, production_timer := 0 } (by norm_num)).2.1]
  refine ⟨by norm_num [aiConfig], ?_, ?_⟩
  · norm_num [aiConfig]
  · simp only [aiConfig]
    norm_num

/-- The Recall branch of `SimpleAI._consider_abilities` (hard difficulty,
checked every 5 seconds): with the recall ability still available, compare
`player_total_ships = sum of Player planet garrisons` against
`my_total_ships = sum of AI planet garrisons + number of AI fleets` (the
code adds `len(enemy_ships)`, the fleet count, not the fleet sizes), and
require at least 3 AI fleets in transit. -/
def aiRecallGate (planets : List Planet) (ships : List Fleet) (recallAvailable : Bool) :
    Bool :=
  let my_planets := planets.filter (fun p => decide (p.owner = Owner.Enemy))
  let player_planets := planets.filter (fun p => decide (p.owner = Owner.Player))
  let enemy_ships := ships.filter (fun s => decide (s.owner = Owner.Enemy))
  let my_total_ships := (my_planets.map Planet.ship_count).sum + (enemy_ships.length : ℤ)
  let player_total_ships := (player_planets.map Planet.ship_count).sum
  recallAvailable
    && decide (player_total_ships > my_total_ships * 2 ∧ enemy_ships.length ≥ 3)

/-- The Recall condition as the spec states it (for comparison with
`aiRecallGate`): both sides' totals count planet garrisons plus fleet
sizes. -/
def specRecallCondition (planets : List Planet) (ships : List Fleet)
    (recallAvailable : Bool) : Bool :=
  let playerTotal :=
    ((planets.filter (fun p => decide (p.owner = Owner.Player))).map Planet.ship_count).sum
      + ((ships.filter (fun s => decide (s.owner = Owner.Player))).map Fleet.size).sum
  let aiTotal :=
    ((planets.filter (fun p => decide (p.owner = Owner.Enemy))).map Planet.ship_count).sum
      + ((ships.filter (fun s => decide (s.owner = Owner.Enemy))).map Fleet.size).sum
  recallAvailable
    && decide (playerTotal > aiTotal * 2
        ∧ (ships.filter (fun s => decide (s.owner = Owner.Enemy))).length ≥ 3)

/-- C5 (counterexample): with an AI planet of 10 ships, a Player planet of
30 ships, and three AI fleets of 100 ships each in transit, the code's gate
fires (30 > 2·(10 + 3 fleets counted as 1 each)) although the claimed
condition is false (30 is far below 2·(10 + 300)): the code counts the
number of AI fleets, not their sizes, and ignores Player fleets entirely. -/
theorem C5_recall_totals_cex :
    aiRecallGate
      [{ x := 0, y := 0, radius := 30, owner := Owner.Enemy, ship_count := 10,
         production_rate := 1, production_timer := 0 },
       { x := 9, y := 9, radius := 30, owner := Owner.Player, ship_count := 30,
         production_rate := 1, production_timer := 0 }]
      [{ owner := Owner.Enemy, size := 100, source := 0, target := 1 },
       { owner := Owner.Enemy, size := 100, source := 0, target := 1 },
       { owner := Owner.Enemy, size := 100, source := 0, target := 1 }]
      true = true ∧
    specRecallCondition
      [{ x := 0, y := 0, radius := 30, owner := Owner.Enemy, ship_count := 10,
         production_rate := 1, production_timer := 0 },
       { x := 9, y := 9, radius := 30, owner := Owner.Player, ship_count := 30,
         production_rate := 1, production_timer := 0 }]
      [{ owner := Owner.Enemy, size := 100, source := 0, target := 1 },
       { owner := Owner.Enemy, size := 100, source := 0, target := 1 },
       { owner := Owner.Enemy, size := 100, source := 0, target := 1 }]
      true = false := by
  constructor <;> rfl

/-- C5 (amended): the hard-difficulty Recall gate fires iff the ability is
available, the sum of Player planet garrisons (Player fleets are NOT
counted) exceeds twice the sum of AI planet garrisons plus the NUMBER of AI
fleets in transit (fleet sizes are not summed), and at least 3 AI fleets are
in transit. -/
theorem C5_recall_gate_characterization (planets : List Planet) (ships : List Fleet)
    (avail : Bool) :
    aiRecallGate planets ships avail = true ↔
      (avail = true ∧
       ((planets.filter (fun p => decide (p.owner = Owner.Player))).map
           Planet.ship_count).sum
         > (((planets.filter (fun p => decide (p.owner = Owner.Enemy))).map
               Planet.ship_count).sum
            + ((ships.filter (fun s => decide (s.owner = Owner.Enemy))).length : ℤ)) * 2 ∧
       3 ≤ (ships.filter (fun s => decide (s.owner = Owner.Enemy))).length) := by
  unfold aiRecallGate
  simp [and_assoc]

/-- The top-left UI exclusion test of `_generate_map`
(`x < ui_exclusion_width and y < ui_exclusion_height`). -/
def uiExclusion (x y : ℤ) : Bool :=
  decide (x < 350 ∧ y < 320)

/-- The overlap test of `_generate_map`, squared on both sides: the source
compares `math.sqrt(dx² + dy²) < radius + existing_radius + 180`, which for
the non-negative right-hand side (radii are ≥ 20) is equivalent to this
integer comparison of squares. -/
def tooClose (c e : ℤ × ℤ × ℤ) : Bool :=
  decide ((c.1 - e.1) ^ 2 + (c.2.1 - e.2.1) ^ 2 < (c.2.2 + e.2.2 + 180) ^ 2)

/-- A candidate is valid against the already placed left-side planets iff it
is too close to none of them. -/
def validPlacement (placed : List (ℤ × ℤ × ℤ)) (c : ℤ × ℤ × ℤ) : Bool :=
  placed.all (fun e =>  ! tooClose c e)

/-- The left-side rejection-sampling loop of `_generate_map`.  The candidate
list models the stream of `randint` draws, its length the `max_attempts`
budget (1000 in the source): each loop iteration consumes one candidate, and
the loop stops when `perSide` planets are placed or the stream (budget) is
exhausted.  Accepted candidates are appended in order. -/
def placeLeft (perSide : ℕ) : List (ℤ × ℤ × ℤ) → List (ℤ × ℤ × ℤ) → List (ℤ × ℤ × ℤ)
  | [], acc => acc
  | c :: cs, acc =>
    if acc.length ≥ perSide then acc
    else if uiExclusion c.1 c.2.1 then placeLeft perSide cs acc
    else if validPlacement acc c then placeLeft perSide cs (acc ++ [c])
    else placeLeft perSide cs acc

/-- The first object-construction loop of `_generate_map`: the first placed
left triple becomes the Player planet with 50 ships, the rest become
Neutral planets with a `randint(15, 30)` garrison (the `roll` oracle). -/
def planetsFromLeft (left : List (ℤ × ℤ × ℤ)) (roll : ℕ → ℤ) : List Planet :=
  left.enum.map (fun p =>
    if p.1 = 0 then
      Planet.create (p.2.1 : ℤ) (p.2.2.1 : ℤ) (p.2.2.2 : ℤ) Owner.Player 50
    else
      Planet.create (p.2.1 : ℤ) (p.2.2.1 : ℤ) (p.2.2.2 : ℤ) Owner.Neutral (roll p.1))

/-- The mirroring loop of `_generate_map`: each left triple is reflected to
`mirror_x = screen_width - x` with the same y and radius; index 0 becomes
the Enemy planet with 50 ships, the rest Neutral with a `randint(15, 30)`
garrison. -/
def planetsFromRight (W : ℤ) (left : List (ℤ × ℤ × ℤ)) (roll : ℕ → ℤ) : List Planet :=
  left.enum.map (fun p =>
    if p.1 = 0 then
      Planet.create ((W - p.2.1 : ℤ) : ℚ) (p.2.2.1 : ℤ) (p.2.2.2 : ℤ) Owner.Enemy 50
    else
      Planet.create ((W - p.2.1 : ℤ) : ℚ) (p.2.2.1 : ℤ) (p.2.2.2 : ℤ) Owner.Neutral
        (roll p.1))

/-- `GameState._generate_map`: run the left-side placement loop on the
candidate stream, build the left planets, their right-side mirrors, and
finally the centerline planet at `x = screen_width // 2` with a random y,
radius and a `randint(20, 35)` garrison, Neutral.  (The unique-name pass is
cosmetic and dropped.) -/
def generateMap (W : ℤ) (perSide : ℕ) (candidates : List (ℤ × ℤ × ℤ))
    (rollL rollR : ℕ → ℤ) (cy cr cShips : ℤ) : List Planet :=
  let left := placeLeft perSide candidates []
  planetsFromLeft left rollL ++ planetsFromRight W left rollR
    ++ [Planet.create ((Int.ediv W 2 : ℤ) : ℚ) (cy : ℤ) (cr : ℤ) Owner.Neutral cShips]

lemma planetsFromLeft_length (left : List (ℤ × ℤ × ℤ)) (roll : ℕ → ℤ) :
    (planetsFromLeft left roll).length = left.length := by
  simp [planetsFromLeft]

lemma planetsFromRight_length (W : ℤ) (left : List (ℤ × ℤ × ℤ)) (roll : ℕ → ℤ) :
    (planetsFromRight W left roll).length = left.length := by
  simp [planetsFromRight]

lemma planetsFromLeft_get (left : List (ℤ × ℤ × ℤ)) (roll : ℕ → ℤ) (i : ℕ)
    (h : i < left.length) :
    (planetsFromLeft left roll).get ⟨i, by rw [planetsFromLeft_length]; exact h⟩
      = if i = 0 then
          Planet.create (left[i].1 : ℤ) (left[i].2.1 : ℤ) (left[i].2.2 : ℤ) Owner.Player 50
        else
          Planet.create (left[i].1 : ℤ) (left[i].2.1 : ℤ) (left[i].2.2 : ℤ) Owner.Neutral
            (roll i) := by
  simp only [planetsFromLeft, List.get_eq_getElem, List.getElem_map,
    List.getElem_enum]

lemma planetsFromRight_get (W : ℤ) (left : List (ℤ × ℤ × ℤ)) (roll : ℕ → ℤ) (i : ℕ)
    (h : i < left.length) :
    (planetsFromRight W left roll).get ⟨i, by rw [planetsFromRight_length]; exact h⟩
      = if i = 0 then
          Planet.create ((W - left[i].1 : ℤ) : ℚ) (left[i].2.1 : ℤ) (left[i].2.2 : ℤ)
            Owner.Enemy 50
        else
          Planet.create ((W - left[i].1 : ℤ) : ℚ) (left[i].2.1 : ℤ) (left[i].2.2 : ℤ)
            Owner.Neutral (roll i) := by
  simp only [planetsFromRight, List.get_eq_getElem, List.getElem_map,
    List.getElem_enum]

lemma generateMap_length (W : ℤ) (perSide : ℕ) (cands : List (ℤ × ℤ × ℤ))
    (rollL rollR : ℕ → ℤ) (cy cr cShips : ℤ) :
    (generateMap W perSide cands rollL rollR cy cr cShips).length
      = 2 * (placeLeft perSide cands []).length + 1 := by
  simp [generateMap, planetsFromLeft_length, planetsFromRight_length]
  omega

/-- `Planet.create` stores the given position, radius, owner and ships. -/
lemma Planet.create_fields (x y radius : ℚ) (owner : Owner) (ship_count : ℤ) :
    (Planet.create x y radius owner ship_count).x = x ∧
    (Planet.create x y radius owner ship_count).y = y ∧
    (Planet.create x y radius owner ship_count).radius = radius ∧
    (Planet.create x y radius owner ship_count).owner = owner ∧
    (Planet.create x y radius owner ship_count).ship_count = ship_count :=
  ⟨rfl, rfl, rfl, rfl, rfl⟩

lemma generateMap_get_left (W : ℤ) (perSide : ℕ) (cands : List (ℤ × ℤ × ℤ))
    (rollL rollR : ℕ → ℤ) (cy cr cShips : ℤ) (i : ℕ)
    (h : i < (placeLeft perSide cands []).length) :
    (generateMap W perSide cands rollL rollR cy cr cShips).get
        ⟨i, by rw [generateMap_length]; omega⟩
      = (planetsFromLeft (placeLeft perSide cands []) rollL).get
          ⟨i, by rw [planetsFromLeft_length]; exact h⟩ := by
  have hout : generateMap W perSide cands rollL rollR cy cr cShips
      = (planetsFromLeft (placeLeft perSide cands []) rollL
          ++ planetsFromRight W (placeLeft perSide cands []) rollR)
        ++ [Planet.create ((Int.ediv W 2 : ℤ) : ℚ) (cy : ℤ) (cr : ℤ) Owner.Neutral cShips] :=
    rfl
  simp only [List.get_eq_getElem, hout]
  rw [List.getElem_append_left, List.getElem_append_left]
  simp [planetsFromLeft_length, planetsFromRight_length]
  omega

lemma generateMap_get_right (W : ℤ) (perSide : ℕ) (cands : List (ℤ × ℤ × ℤ))
    (rollL rollR : ℕ → ℤ) (cy cr cShips : ℤ) (i : ℕ)
    (h : i < (placeLeft perSide cands []).length) :
    (generateMap W perSide cands rollL rollR cy cr cShips).get
        ⟨(placeLeft perSide cands []).length + i, by rw [generateMap_length]; omega⟩
      = (planetsFromRight W (placeLeft perSide cands []) rollR).get
          ⟨i, by rw [planetsFromRight_length]; exact h⟩ := by
  have hout : generateMap W perSide cands rollL rollR cy cr cShips
      = (planetsFromLeft (placeLeft perSide cands []) rollL
          ++ planetsFromRight W (placeLeft perSide cands []) rollR)
        ++ [Planet.create ((Int.ediv W 2 : ℤ) : ℚ) (cy : ℤ) (cr : ℤ) Owner.Neutral cShips] :=
    rfl
  simp only [List.get_eq_getElem, hout]
  rw [List.getElem_append_left (by
        simp [planetsFromLeft_length, planetsFromRight_length]
        omega),
      List.getElem_append_right (by rw [planetsFromLeft_length]; omega)]
  congr 1
  rw [planetsFromLeft_length]
  omega

lemma generateMap_get_center (W : ℤ) (perSide : ℕ) (cands : List (ℤ × ℤ × ℤ))
    (rollL rollR : ℕ → ℤ) (cy cr cShips : ℤ) :
    (generateMap W perSide cands rollL rollR cy cr cShips).get
        ⟨2 * (placeLeft perSide cands []).length, by rw [generateMap_length]; omega⟩
      = Planet.create ((Int.ediv W 2 : ℤ) : ℚ) (cy : ℤ) (cr : ℤ) Owner.Neutral cShips := by
  have hout : generateMap W perSide cands rollL rollR cy cr cShips
      = (planetsFromLeft (placeLeft perSide cands []) rollL
          ++ planetsFromRight W (placeLeft perSide cands []) rollR)
        ++ [Planet.create ((Int.ediv W 2 : ℤ) : ℚ) (cy : ℤ) (cr : ℤ) Owner.Neutral cShips] :=
    rfl
  simp only [List.get_eq_getElem, hout]
  rw [List.getElem_append_right (by
        simp [planetsFromLeft_length, planetsFromRight_length]
        omega)]
  simp [planetsFromLeft_length, planetsFromRight_length, two_mul]

/-- C6: in the generated planet list, the i-th right-side planet is the
exact horizontal mirror of the i-th left-side planet (`x' = W - x`, same y,
same radius); the first placed left planet is Player with 50 ships and its
mirror Enemy with 50 ships; every other left/right planet is Neutral with a
garrison in [15, 30]; and the single centerline planet (`x = W // 2`) is
Neutral with a garrison in [20, 35].  The `randint` oracles are constrained
to their source ranges by hypotheses. -/
theorem C6_mirrored_map (W : ℤ) (perSide : ℕ) (cands : List (ℤ × ℤ × ℤ))
    (rollL rollR : ℕ → ℤ) (cy cr cShips : ℤ)
    (hrollL : ∀ i, 15 ≤ rollL i ∧ rollL i ≤ 30)
    (hrollR : ∀ i, 15 ≤ rollR i ∧ rollR i ≤ 30)
    (hcS : 20 ≤ cShips ∧ cShips ≤ 35) :
    (generateMap W perSide cands rollL rollR cy cr cShips).length
      = 2 * (placeLeft perSide cands []).length + 1 ∧
    (∀ (i : ℕ) (h : i < (placeLeft perSide cands []).length),
      ((generateMap W perSide cands rollL rollR cy cr cShips).get
          ⟨(placeLeft perSide cands []).length + i, by rw [generateMap_length]; omega⟩).x
        = (W : ℚ)
          - ((generateMap W perSide cands rollL rollR cy cr cShips).get
              ⟨i, by rw [generateMap_length]; omega⟩).x ∧
      ((generateMap W perSide cands rollL rollR cy cr cShips).get
          ⟨(placeLeft perSide cands []).length + i, by rw [generateMap_length]; omega⟩).y
        = ((generateMap W perSide cands rollL rollR cy cr cShips).get
              ⟨i, by rw [generateMap_length]; omega⟩).y ∧
      ((generateMap W perSide cands rollL rollR cy cr cShips).get
          ⟨(placeLeft perSide cands []).length + i, by rw [generateMap_length]; omega⟩).radius
        = ((generateMap W perSide cands rollL rollR cy cr cShips).get
              ⟨i, by rw [generateMap_length]; omega⟩).radius) ∧
    (∀ (h : 0 < (placeLeft perSide cands []).length),
      ((generateMap W perSide cands rollL rollR cy cr cShips).get
          ⟨0, by rw [generateMap_length]; omega⟩).owner = Owner.Player ∧
      ((generateMap W perSide cands rollL rollR cy cr cShips).get
          ⟨0, by rw [generateMap_length]; omega⟩).ship_count = 50 ∧
      ((generateMap W perSide cands rollL rollR cy cr cShips).get
          ⟨(placeLeft perSide cands []).length + 0, by rw [generateMap_length]; omega⟩).owner
        = Owner.Enemy ∧
      ((generateMap W perSide cands rollL rollR cy cr cShips).get
          ⟨(placeLeft perSide cands []).length + 0, by rw [generateMap_length]; omega⟩).ship_count
        = 50) ∧
    (∀ (i : ℕ) (h : i < (placeLeft perSide cands []).length), i ≠ 0 →
      ((generateMap W perSide cands rollL rollR cy cr cShips).get
          ⟨i, by rw [generateMap_length]; omega⟩).owner = Owner.Neutral ∧
      15 ≤ ((generateMap W perSide cands rollL rollR cy cr cShips).get
          ⟨i, by rw [generateMap_length]; omega⟩).ship_count ∧
      ((generateMap W perSide cands rollL rollR cy cr cShips).get
          ⟨i, by rw [generateMap_length]; omega⟩).ship_count ≤ 30 ∧
      ((generateMap W perSide cands rollL rollR cy cr cShips).get
          ⟨(placeLeft perSide cands []).length + i, by rw [generateMap_length]; omega⟩).owner
        = Owner.Neutral ∧
      15 ≤ ((generateMap W perSide cands rollL rollR cy cr cShips).get
          ⟨(placeLeft perSide cands []).length + i, by rw [generateMap_length]; omega⟩).ship_count ∧
      ((generateMap W perSide cands rollL rollR cy cr cShips).get
          ⟨(placeLeft perSide cands []).length + i, by rw [generateMap_length]; omega⟩).ship_count
        ≤ 30) ∧
    (((generateMap W perSide cands rollL rollR cy cr cShips).get
        ⟨2 * (placeLeft perSide cands []).length, by rw [generateMap_length]; omega⟩).owner
      = Owner.Neutral ∧
     ((generateMap W perSide cands rollL rollR cy cr cShips).get
        ⟨2 * (placeLeft perSide cands []).length, by rw [generateMap_length]; omega⟩).x
      = ((Int.ediv W 2 : ℤ) : ℚ) ∧
     20 ≤ ((generateMap W perSide cands rollL rollR cy cr cShips).get
        ⟨2 * (placeLeft perSide cands []).length, by rw [generateMap_length]; omega⟩).ship_count ∧
     ((generateMap W perSide cands rollL rollR cy cr cShips).get
        ⟨2 * (placeLeft perSide cands []).length, by rw [generateMap_length]; omega⟩).ship_count
      ≤ 35) := by
  refine ⟨generateMap_length W perSide cands rollL rollR cy cr cShips, ?_, ?_, ?_, ?_⟩
  · intro i h
    rw [generateMap_get_right W perSide cands rollL rollR cy cr cShips i h,
      generateMap_get_left W perSide cands rollL rollR cy cr cShips i h,
      planetsFromRight_get W _ rollR i h, planetsFromLeft_get _ rollL i h]
    split_ifs <;>
      refine ⟨?_, rfl, rfl⟩ <;>
      · show ((W - (placeLeft perSide cands [])[i].1 : ℤ) : ℚ) = _
        simp only [Planet.create]
        push_cast
        ring
  · intro h
    rw [generateMap_get_left W perSide cands rollL rollR cy cr cShips 0 h,
      generateMap_get_right W perSide cands rollL rollR cy cr cShips 0 h,
      planetsFromRight_get W _ rollR 0 h, planetsFromLeft_get _ rollL 0 h]
    rw [if_pos rfl, if_pos rfl]
    exact ⟨rfl, rfl, rfl, rfl⟩
  · intro i h hi
    rw [generateMap_get_left W perSide cands rollL rollR cy cr cShips i h,
      generateMap_get_right W perSide cands rollL rollR cy cr cShips i h,
      planetsFromRight_get W _ rollR i h, planetsFromLeft_get _ rollL i h]
    rw [if_neg hi, if_neg hi]
    exact ⟨rfl, (hrollL i).1, (hrollL i).2, rfl, (hrollR i).1, (hrollR i).2⟩
  · rw [generateMap_get_center W perSide cands rollL rollR cy cr cShips]
    exact ⟨rfl, rfl, hcS.1, hcS.2⟩

/-- C6 witness: a concrete two-candidate run on a 1280-wide screen: the
second left planet (320, 500, 25) is mirrored to (960, 500, 25), the first
pair is Player/Enemy with 50 ships, the others Neutral in range. -/
theorem C6_mirrored_map_witness :
    ((∀ i : ℕ, 15 ≤ (fun _ : ℕ => (20 : ℤ)) i ∧ (fun _ : ℕ => (20 : ℤ)) i ≤ 30) ∧
     (20 : ℤ) ≤ 27 ∧ (27 : ℤ) ≤ 35) ∧
    ((generateMap 1280 2 [(400, 400, 30), (320, 700, 25)]
        (fun _ => 20) (fun _ => 20) 500 40 27).get
      ⟨0, by rw [generateMap_length]; decide⟩).owner = Owner.Player := by
  refine ⟨⟨fun i => by norm_num, by norm_num, by norm_num⟩, ?_⟩
  exact ((C6_mirrored_map 1280 2 [(400, 400, 30), (320, 700, 25)]
      (fun _ => 20) (fun _ => 20) 500 40 27
      (fun i => by norm_num) (fun i => by norm_num) (by norm_num)).2.2.1
      (by decide)).1

/-- The minimum-gap relation between two placement triples, squared (the
source's `distance ≥ r1 + r2 + 180` with both sides squared). -/
def gapOK (a b : ℤ × ℤ × ℤ) : Prop :=
  (a.2.2 + b.2.2 + 180) ^ 2 ≤ (a.1 - b.1) ^ 2 + (a.2.1 - b.2.1) ^ 2

lemma gapOK_symm (a b : ℤ × ℤ × ℤ) (h : gapOK a b) : gapOK b a := by
  unfold gapOK at h ⊢
  have e1 : (b.1 - a.1) ^ 2 = (a.1 - b.1) ^ 2 := by ring
  have e2 : (b.2.1 - a.2.1) ^ 2 = (a.2.1 - b.2.1) ^ 2 := by ring
  have e3 : (b.2.2 + a.2.2 + 180) ^ 2 = (a.2.2 + b.2.2 + 180) ^ 2 := by ring
  rw [e1, e2, e3]
  exact h

lemma validPlacement_gap (placed : List (ℤ × ℤ × ℤ)) (c : ℤ × ℤ × ℤ)
    (h : validPlacement placed c = true) : ∀ e ∈ placed, gapOK c e := by
  intro e he
  have hb := List.all_eq_true.mp h e he
  simp only [Bool.not_eq_true', tooClose, decide_eq_false_iff_not, not_lt] at hb
  exact hb

/-- A left-side placement run only ever accepts candidates far enough from
everything already accepted, so the accepted list is pairwise gap-correct. -/
lemma placeLeft_pairwise (perSide : ℕ) (cands : List (ℤ × ℤ × ℤ)) :
    ∀ acc, acc.Pairwise gapOK → (placeLeft perSide cands acc).Pairwise gapOK := by
  induction cands with
  | nil =>
    intro acc hacc
    exact hacc
  | cons c cs ih =>
    intro acc hacc
    simp only [placeLeft]
    split_ifs with h1 h2 h3
    · exact hacc
    · exact ih acc hacc
    · apply ih
      rw [List.pairwise_append]
      refine ⟨hacc, List.pairwise_singleton _ _, ?_⟩
      intro a ha b hb
      simp only [List.mem_singleton] at hb
      rw [hb]
      exact gapOK_symm c a (validPlacement_gap acc c h3 a ha)
    · exact ih acc hacc

/-- C7 (amended): the minimum-gap guarantee holds between planets of the
same side — every pair of accepted left-side triples respects
`dist ≥ r1 + r2 + 180` (in squared form), and so does every pair of their
right-side mirrors, since mirroring preserves distances.  Cross-side pairs
and pairs involving the centerline planet are never checked by the
generator and can violate the gap without any budget exhaustion (see the
counterexample). -/
theorem C7_same_side_gap (perSide : ℕ) (cands : List (ℤ × ℤ × ℤ)) :
    (placeLeft perSide cands []).Pairwise gapOK ∧
    (∀ W : ℤ, ((placeLeft perSide cands []).map
        (fun p => (W - p.1, p.2.1, p.2.2))).Pairwise gapOK) := by
  constructor
  · exact placeLeft_pairwise perSide cands [] List.Pairwise.nil
  · intro W
    refine List.Pairwise.map _ ?_ (placeLeft_pairwise perSide cands [] List.Pairwise.nil)
    intro a b hab
    unfold gapOK at hab ⊢
    dsimp only
    have e1 : (W - a.1 - (W - b.1)) ^ 2 = (a.1 - b.1) ^ 2 := by ring
    rw [e1]
    exact hab

/-- C7 (counterexample): a non-degraded run on a 1280×720 screen (all three
requested left planets placed, every random draw within its `randint`
range) in which the Player planet at (560, 400) radius 20 and its Enemy
mirror at (720, 400) radius 20 are 160 apart, violating the claimed
`dist ≥ r1 + r2 + 180 = 220` for cross-side pairs. -/
theorem C7_cross_side_overlap_cex :
    (placeLeft 3 [(560, 400, 20), (100, 400, 20), (400, 80, 20)] []).length = 3 ∧
    (∀ c ∈ [((560 : ℤ), (400 : ℤ), (20 : ℤ)), (100, 400, 20), (400, 80, 20)],
      80 ≤ c.1 ∧ c.1 ≤ 1280 / 2 - 80 ∧ 80 ≤ c.2.1 ∧ c.2.1 ≤ 720 - 80 ∧
      20 ≤ c.2.2 ∧ c.2.2 ≤ 70) ∧
    (((generateMap 1280 3 [(560, 400, 20), (100, 400, 20), (400, 80, 20)]
          (fun _ => 20) (fun _ => 20) 400 30 25).get
        ⟨0, by rw [generateMap_length]; decide⟩).x
      - ((generateMap 1280 3 [(560, 400, 20), (100, 400, 20), (400, 80, 20)]
          (fun _ => 20) (fun _ => 20) 400 30 25).get
        ⟨3, by rw [generateMap_length]; decide⟩).x) ^ 2
    + (((generateMap 1280 3 [(560, 400, 20), (100, 400, 20), (400, 80, 20)]
          (fun _ => 20) (fun _ => 20) 400 30 25).get
        ⟨0, by rw [generateMap_length]; decide⟩).y
      - ((generateMap 1280 3 [(560, 400, 20), (100, 400, 20), (400, 80, 20)]
          (fun _ => 20) (fun _ => 20) 400 30 25).get
        ⟨3, by rw [generateMap_length]; decide⟩).y) ^ 2
    < (((generateMap 1280 3 [(560, 400, 20), (100, 400, 20), (400, 80, 20)]
          (fun _ => 20) (fun _ => 20) 400 30 25).get
        ⟨0, by rw [generateMap_length]; decide⟩).radius
      + ((generateMap 1280 3 [(560, 400, 20), (100, 400, 20), (400, 80, 20)]
          (fun _ => 20) (fun _ => 20) 400 30 25).get
        ⟨3, by rw [generateMap_length]; decide⟩).radius + 180) ^ 2 := by
  refine ⟨by decide, by decide, ?_⟩
  have hx0 : ((generateMap 1280 3 [(560, 400, 20), (100, 400, 20), (400, 80, 20)]
          (fun _ => 20) (fun _ => 20) 400 30 25).get
      ⟨0, by rw [generateMap_length]; decide⟩).x = ((560 : ℤ) : ℚ) := rfl
  have hx3 : ((generateMap 1280 3 [(560, 400, 20), (100, 400, 20), (400, 80, 20)]
          (fun _ => 20) (fun _ => 20) 400 30 25).get
      ⟨3, by rw [generateMap_length]; decide⟩).x = ((1280 - 560 : ℤ) : ℚ) := rfl
  have hy0 : ((generateMap 1280 3 [(560, 400, 20), (100, 400, 20), (400, 80, 20)]
          (fun _ => 20) (fun _ => 20) 400 30 25).get
      ⟨0, by rw [generateMap_length]; decide⟩).y = ((400 : ℤ) : ℚ) := rfl
  have hy3 : ((generateMap 1280 3 [(560, 400, 20), (100, 400, 20), (400, 80, 20)]
          (fun _ => 20) (fun _ => 20) 400 30 25).get
      ⟨3, by rw [generateMap_length]; decide⟩).y = ((400 : ℤ) : ℚ) := rfl
  have hr0 : ((generateMap 1280 3 [(560, 400, 20), (100, 400, 20), (400, 80, 20)]
          (fun _ => 20) (fun _ => 20) 400 30 25).get
      ⟨0, by rw [generateMap_length]; decide⟩).radius = ((20 : ℤ) : ℚ) := rfl
  have hr3 : ((generateMap 1280 3 [(560, 400, 20), (100, 400, 20), (400, 80, 20)]
          (fun _ => 20) (fun _ => 20) 400 30 25).get
      ⟨3, by rw [generateMap_length]; decide⟩).radius = ((20 : ℤ) : ℚ) := rfl
  rw [hx0, hx3, hy0, hy3, hr0, hr3]
  norm_num

end PlanetWars
